import Mathlib

/-
  Shallow embedding of the BPMN-Python-Schema core (bpmn_schema/core and
  bpmn_schema/validation) in Lean 4.

  Pure data: pydantic models become structures; visual metadata (position,
  dimensions, waypoints) and the open property bag are omitted because no
  verified operation reads them.  Python list mutation becomes functional
  update; methods that raise become Except-valued functions.
-/

namespace BPMN

/-- Event phases, mirroring events.EventType. -/
inductive EventType where
  | start
  | intermediate
  | boundary
  | end_
deriving DecidableEq, Repr

/-- Trigger kinds, mirroring events.EventDefinition. -/
inductive EventDefinition where
  | none_
  | message
  | timer
  | error
  | escalation
  | cancel
  | compensation
  | conditional
  | link
  | signal
  | terminate
  | multiple
  | parallel_multiple
deriving DecidableEq, Repr

/-- events.Event: identity plus phase, trigger and boundary-attachment data. -/
structure Event where
  id : String
  name : Option String := Option.none
  event_type : EventType := EventType.start
  event_definition : EventDefinition := EventDefinition.none_
  is_interrupting : Bool := true
  is_throwing : Bool := false
  trigger : Option String := Option.none
  attached_to_ref : Option String := Option.none
  cancel_activity : Bool := true
deriving DecidableEq, Repr

def Event.is_start_event (e : Event) : Bool :=
  e.event_type == EventType.start

def Event.is_end_event (e : Event) : Bool :=
  e.event_type == EventType.end_

def Event.is_boundary_event (e : Event) : Bool :=
  e.event_type == EventType.boundary

/-- events.Event.attach_to_activity: one-way transition to the boundary
    phase, recording the attachment id and the interrupting flag. -/
def Event.attach_to_activity (e : Event) (activity_id : String)
    (interrupting : Bool) : Event :=
  { e with event_type := EventType.boundary,
           attached_to_ref := some activity_id,
           is_interrupting := interrupting }

/-- activities.TaskType. -/
inductive TaskType where
  | task
  | user_task
  | service_task
  | manual_task
  | script_task
  | business_rule_task
  | send_task
  | receive_task
deriving DecidableEq, Repr

/-- activities.ActivityMarker. -/
inductive ActivityMarker where
  | loop
  | parallel_multi_instance
  | sequential_multi_instance
  | compensation
  | ad_hoc
deriving DecidableEq, Repr

/-- activities.Task: identity, kind, markers and the kind-specific fields
    touched by the verified mutators. -/
structure Task where
  id : String
  name : Option String := Option.none
  task_type : TaskType := TaskType.task
  markers : List ActivityMarker := []
  assignee : Option String := Option.none
  candidate_groups : List String := []
  candidate_users : List String := []
  script : Option String := Option.none
  script_format : Option String := Option.none
  is_sequential : Bool := false
  loop_cardinality : Option String := Option.none
  completion_condition : Option String := Option.none
  collection : Option String := Option.none
  element_variable : Option String := Option.none
deriving DecidableEq, Repr

def Task.is_multi_instance (t : Task) : Bool :=
  t.markers.contains ActivityMarker.parallel_multi_instance ||
  t.markers.contains ActivityMarker.sequential_multi_instance

def Task.is_parallel_multi_instance (t : Task) : Bool :=
  t.markers.contains ActivityMarker.parallel_multi_instance

def Task.is_sequential_multi_instance (t : Task) : Bool :=
  t.markers.contains ActivityMarker.sequential_multi_instance

/-- activities.Task.set_multi_instance_parallel: appends the parallel marker
    and sets the multi-instance fields (is_sequential becomes false). -/
def Task.set_multi_instance_parallel (t : Task) (collection : String)
    (element_variable : String) : Task :=
  { t with markers := t.markers ++ [ActivityMarker.parallel_multi_instance],
           collection := some collection,
           element_variable := some element_variable,
           is_sequential := false }

/-- activities.Task.set_multi_instance_sequential: appends the sequential
    marker and sets the multi-instance fields (is_sequential becomes true). -/
def Task.set_multi_instance_sequential (t : Task) (collection : String)
    (element_variable : String) : Task :=
  { t with markers := t.markers ++ [ActivityMarker.sequential_multi_instance],
           collection := some collection,
           element_variable := some element_variable,
           is_sequential := true }

/-- gateways.GatewayType. -/
inductive GatewayType where
  | exclusive
  | inclusive
  | parallel
  | complex
  | event_based
  | exclusive_event_based
  | parallel_event_based
deriving DecidableEq, Repr

/-- The .value string of each gateway type, used in error messages. -/
def GatewayType.value : GatewayType → String
  | GatewayType.exclusive => "exclusive"
  | GatewayType.inclusive => "inclusive"
  | GatewayType.parallel => "parallel"
  | GatewayType.complex => "complex"
  | GatewayType.event_based => "event_based"
  | GatewayType.exclusive_event_based => "exclusive_event_based"
  | GatewayType.parallel_event_based => "parallel_event_based"

/-- gateways.Gateway.gateway_direction literal. -/
inductive GatewayDirection where
  | unspecified
  | converging
  | diverging
  | mixed
deriving DecidableEq, Repr

/-- gateways.Gateway. -/
structure Gateway where
  id : String
  name : Option String := Option.none
  gateway_type : GatewayType := GatewayType.exclusive
  gateway_direction : GatewayDirection := GatewayDirection.unspecified
  default_flow : Option String := Option.none
  instantiate : Bool := false
deriving DecidableEq, Repr

def Gateway.is_exclusive (g : Gateway) : Bool :=
  g.gateway_type == GatewayType.exclusive

def Gateway.is_inclusive (g : Gateway) : Bool :=
  g.gateway_type == GatewayType.inclusive

def Gateway.is_event_based (g : Gateway) : Bool :=
  g.gateway_type == GatewayType.event_based ||
  g.gateway_type == GatewayType.exclusive_event_based ||
  g.gateway_type == GatewayType.parallel_event_based

def Gateway.is_diverging (g : Gateway) : Bool :=
  g.gateway_direction == GatewayDirection.diverging

def Gateway.is_converging (g : Gateway) : Bool :=
  g.gateway_direction == GatewayDirection.converging

/-- gateways.Gateway.set_default_flow: only exclusive and inclusive
    gateways accept a default flow; other kinds raise ValueError naming the
    unsupported kind (modelled as Except.error with the message text). -/
def Gateway.set_default_flow (g : Gateway) (flow_id : String) :
    Except String Gateway :=
  if g.is_exclusive || g.is_inclusive then
    Except.ok { g with default_flow := some flow_id }
  else
    Except.error
      ("Default flow not supported for " ++ g.gateway_type.value ++ " gateway")

/-- gateways.Gateway.enable_process_instantiation. -/
def Gateway.enable_process_instantiation (g : Gateway) :
    Except String Gateway :=
  if g.is_event_based then
    Except.ok { g with instantiate := true }
  else
    Except.error "Process instantiation only supported for event-based gateways"

/-- flows.SequenceFlow (waypoints omitted: visual only). -/
structure SequenceFlow where
  id : String
  name : Option String := Option.none
  source_ref : String
  target_ref : String
  condition_expression : Option String := Option.none
  is_immediate : Bool := false
deriving DecidableEq, Repr

/-- flows.MessageFlow (waypoints omitted: visual only). -/
structure MessageFlow where
  id : String
  name : Option String := Option.none
  source_ref : String
  target_ref : String
  message_ref : Option String := Option.none
deriving DecidableEq, Repr

/-- flows.Association direction literal. -/
inductive AssociationDirection where
  | none_
  | one
  | both
deriving DecidableEq, Repr

/-- flows.Association (waypoints omitted: visual only). -/
structure Association where
  id : String
  name : Option String := Option.none
  source_ref : String
  target_ref : String
  association_direction : AssociationDirection := AssociationDirection.none_
deriving DecidableEq, Repr

/-- artifacts.DataObject. -/
structure DataObject where
  id : String
  name : Option String := Option.none
  is_collection : Bool := false
  item_subject_ref : Option String := Option.none
  state : Option String := Option.none
deriving DecidableEq, Repr

/-- artifacts.DataStore. -/
structure DataStore where
  id : String
  name : Option String := Option.none
  capacity : Option Int := Option.none
  is_unlimited : Bool := true
  item_subject_ref : Option String := Option.none
deriving DecidableEq, Repr

/-- artifacts.Group. -/
structure Group where
  id : String
  name : Option String := Option.none
  category_value_ref : Option String := Option.none
deriving DecidableEq, Repr

/-- artifacts.TextAnnotation. -/
structure TextAnnotation where
  id : String
  name : Option String := Option.none
  text : String
  text_format : String := "text/plain"
deriving DecidableEq, Repr

/-- activities.SubProcessType. -/
inductive SubProcessType where
  | embedded
  | event
  | call_activity
  | transaction
  | ad_hoc
deriving DecidableEq, Repr

mutual
/-- activities.SubProcess: a compound activity that is itself a container
    of nested elements, nested sequence flows and attached boundary events. -/
inductive SubProcess where
  | mk (id : String) (name : Option String) (subprocess_type : SubProcessType)
      (markers : List ActivityMarker)
      (elements : List SubElement)
      (sequence_flows : List SequenceFlow)
      (boundary_events : List Event) : SubProcess

/-- An entry of SubProcess.elements (Union[Task, Event, SubProcess]). -/
inductive SubElement where
  | task (t : Task) : SubElement
  | event (e : Event) : SubElement
  | sub (s : SubProcess) : SubElement
end

def SubProcess.id : SubProcess → String
  | SubProcess.mk i _ _ _ _ _ _ => i

def SubProcess.elements : SubProcess → List SubElement
  | SubProcess.mk _ _ _ _ es _ _ => es

def SubProcess.sequence_flows : SubProcess → List SequenceFlow
  | SubProcess.mk _ _ _ _ _ fs _ => fs

def SubProcess.boundary_events : SubProcess → List Event
  | SubProcess.mk _ _ _ _ _ _ bs => bs

/-- activities.SubProcess.add_boundary_event: attaches the event to this
    sub-process (the Python call uses the default interrupting=True) and then
    appends it to the boundary-event list.  Returns the updated sub-process. -/
def SubProcess.add_boundary_event (s : SubProcess) (event : Event) :
    SubProcess :=
  match s with
  | SubProcess.mk i n ty ms es fs bs =>
    SubProcess.mk i n ty ms es fs (bs ++ [event.attach_to_activity i true])

/-- The attached form of an event added via add_boundary_event, for reuse in
    statements: attach_to_activity with the sub-process id and True. -/
def SubProcess.attachedEvent (s : SubProcess) (event : Event) : Event :=
  event.attach_to_activity s.id true

/-- swimlanes.Lane: flow-node id references plus nested child lanes. -/
inductive Lane where
  | mk (id : String) (name : Option String) (flow_node_refs : List String)
      (child_lanes : List Lane) : Lane

def Lane.id : Lane → String
  | Lane.mk i _ _ _ => i

def Lane.flow_node_refs : Lane → List String
  | Lane.mk _ _ refs _ => refs

def Lane.child_lanes : Lane → List Lane
  | Lane.mk _ _ _ cs => cs

/-- swimlanes.Pool: a participant holding a process reference and lanes. -/
structure Pool where
  id : String
  name : Option String := Option.none
  is_executable : Bool := false
  process_ref : Option String := Option.none
  lanes : List Lane := []

/-- The runtime element union returned by the id lookups (BPMNElement in
    the Python code). -/
inductive BElement where
  | event (e : Event)
  | task (t : Task)
  | gateway (g : Gateway)
  | sub (s : SubProcess)
  | seqFlow (f : SequenceFlow)
  | assoc (a : Association)
  | dataObject (d : DataObject)
  | dataStore (d : DataStore)
  | group (g : Group)
  | textAnn (t : TextAnnotation)
  | lane (l : Lane)
  | pool (p : Pool)
  | messageFlow (m : MessageFlow)

/-- The id carried by an element, whatever its variant. -/
def BElement.id : BElement → String
  | BElement.event e => e.id
  | BElement.task t => t.id
  | BElement.gateway g => g.id
  | BElement.sub s => s.id
  | BElement.seqFlow f => f.id
  | BElement.assoc a => a.id
  | BElement.dataObject d => d.id
  | BElement.dataStore d => d.id
  | BElement.group g => g.id
  | BElement.textAnn t => t.id
  | BElement.lane l => l.id
  | BElement.pool p => p.id
  | BElement.messageFlow m => m.id

/-- processes.Process: typed collections partitioned by variant. -/
structure Process where
  id : String
  name : Option String := Option.none
  is_executable : Bool := false
  events : List Event := []
  tasks : List Task := []
  gateways : List Gateway := []
  subprocesses : List SubProcess := []
  sequence_flows : List SequenceFlow := []
  associations : List Association := []
  data_objects : List DataObject := []
  data_stores : List DataStore := []
  groups : List Group := []
  text_annotations : List TextAnnotation := []
  lanes : List Lane := []

/-- processes.Process.get_all_elements: concatenation of the typed
    collections in the declared order. -/
def Process.get_all_elements (p : Process) : List BElement :=
  p.events.map BElement.event ++ p.tasks.map BElement.task ++
  p.gateways.map BElement.gateway ++ p.subprocesses.map BElement.sub ++
  p.sequence_flows.map BElement.seqFlow ++ p.associations.map BElement.assoc ++
  p.data_objects.map BElement.dataObject ++
  p.data_stores.map BElement.dataStore ++ p.groups.map BElement.group ++
  p.text_annotations.map BElement.textAnn ++ p.lanes.map BElement.lane

/-- The flow-object union (Union[Task, Event, Gateway, SubProcess]). -/
inductive FlowObject where
  | event (e : Event)
  | task (t : Task)
  | gateway (g : Gateway)
  | sub (s : SubProcess)

def FlowObject.id : FlowObject → String
  | FlowObject.event e => e.id
  | FlowObject.task t => t.id
  | FlowObject.gateway g => g.id
  | FlowObject.sub s => s.id

/-- processes.Process.get_all_flow_objects: events + tasks + gateways +
    subprocesses, in that order. -/
def Process.get_all_flow_objects (p : Process) : List FlowObject :=
  p.events.map FlowObject.event ++ p.tasks.map FlowObject.task ++
  p.gateways.map FlowObject.gateway ++ p.subprocesses.map FlowObject.sub

/-- processes.Process.get_element_by_id: linear scan over get_all_elements,
    returning the first element whose id matches. -/
def Process.get_element_by_id (p : Process) (element_id : String) :
    Option BElement :=
  p.get_all_elements.find? (fun element => element.id == element_id)

def Process.get_start_events (p : Process) : List Event :=
  p.events.filter (fun event => event.is_start_event)

def Process.get_end_events (p : Process) : List Event :=
  p.events.filter (fun event => event.is_end_event)

/-- processes.BPMNDiagram: the top-level container. -/
structure BPMNDiagram where
  id : String
  name : Option String := Option.none
  processes : List Process := []
  pools : List Pool := []
  message_flows : List MessageFlow := []
  global_data_stores : List DataStore := []
  global_text_annotations : List TextAnnotation := []

/-- The processes loop of BPMNDiagram.get_element_by_id: delegate to each
    process in order and keep the first hit. -/
def findInProcesses : List Process → String → Option BElement
  | [], _ => Option.none
  | p :: ps, element_id =>
    match p.get_element_by_id element_id with
    | some element => some element
    | Option.none => findInProcesses ps element_id

/-- The pools loop of BPMNDiagram.get_element_by_id: per pool, first the
    pool itself, then its direct lanes (child lanes are never visited). -/
def findInPools : List Pool → String → Option BElement
  | [], _ => Option.none
  | pool :: ps, element_id =>
    if pool.id == element_id then some (BElement.pool pool)
    else
      match pool.lanes.find? (fun lane => lane.id == element_id) with
      | some lane => some (BElement.lane lane)
      | Option.none => findInPools ps element_id

/-- processes.BPMNDiagram.get_element_by_id: scan processes, then pools and
    their lanes, then message flows, then global artifacts. -/
def BPMNDiagram.get_element_by_id (d : BPMNDiagram) (element_id : String) :
    Option BElement :=
  match findInProcesses d.processes element_id with
  | some element => some element
  | Option.none =>
    match findInPools d.pools element_id with
    | some element => some element
    | Option.none =>
      match d.message_flows.find? (fun m => m.id == element_id) with
      | some m => some (BElement.messageFlow m)
      | Option.none =>
        match d.global_data_stores.find? (fun ds => ds.id == element_id) with
        | some ds => some (BElement.dataStore ds)
        | Option.none =>
          match d.global_text_annotations.find?
              (fun ta => ta.id == element_id) with
          | some ta => some (BElement.textAnn ta)
          | Option.none => Option.none

/-- validators.ValidationSeverity. -/
inductive ValidationSeverity where
  | error
  | warning
  | info
deriving DecidableEq, Repr

/-- validators.ValidationResult: one severity-classified finding. -/
structure ValidationResult where
  severity : ValidationSeverity
  element_id : Option String
  element_type : Option String
  message : String
  rule_name : String
deriving DecidableEq, Repr

/-- validators.StartEventRule.validate: per process, zero start events is an
    error, more than one is a warning naming the count. -/
def StartEventRule.validate (d : BPMNDiagram) : List ValidationResult :=
  d.processes.flatMap (fun process =>
    let start_events := process.get_start_events
    if start_events.length == 0 then
      [{ severity := ValidationSeverity.error,
         element_id := some process.id,
         element_type := some "Process",
         message := "Process must have at least one start event",
         rule_name := "start_event_rule" }]
    else if start_events.length > 1 then
      [{ severity := ValidationSeverity.warning,
         element_id := some process.id,
         element_type := some "Process",
         message := "Process has " ++ toString start_events.length ++
           " start events (multiple start events should be used carefully)",
         rule_name := "start_event_rule" }]
    else [])

/-- validators.EndEventRule.validate: per process, zero end events is a
    warning. -/
def EndEventRule.validate (d : BPMNDiagram) : List ValidationResult :=
  d.processes.flatMap (fun process =>
    let end_events := process.get_end_events
    if end_events.length == 0 then
      [{ severity := ValidationSeverity.warning,
         element_id := some process.id,
         element_type := some "Process",
         message := "Process should have at least one end event",
         rule_name := "end_event_rule" }]
    else [])

/-- The per-flow-object body of validators.SequenceFlowRule.validate:
    incoming and outgoing sequence-flow sets are computed by matching
    target_ref and source_ref; a start event with incoming flows or an end
    event with outgoing flows yields an error, a task connected to nothing
    yields a warning, and all other variants yield nothing. -/
def SequenceFlowRule.checkFlowObject (flows : List SequenceFlow)
    (flow_obj : FlowObject) : List ValidationResult :=
  let incoming_flows := flows.filter (fun f => f.target_ref == flow_obj.id)
  let outgoing_flows := flows.filter (fun f => f.source_ref == flow_obj.id)
  let startChecks :=
    match flow_obj with
    | FlowObject.event e =>
      if e.is_start_event && !incoming_flows.isEmpty then
        [{ severity := ValidationSeverity.error,
           element_id := some e.id,
           element_type := some "StartEvent",
           message := "Start events cannot have incoming sequence flows",
           rule_name := "sequence_flow_rule" }]
      else []
    | _ => []
  let endChecks :=
    match flow_obj with
    | FlowObject.event e =>
      if e.is_end_event && !outgoing_flows.isEmpty then
        [{ severity := ValidationSeverity.error,
           element_id := some e.id,
           element_type := some "EndEvent",
           message := "End events cannot have outgoing sequence flows",
           rule_name := "sequence_flow_rule" }]
      else []
    | _ => []
  let taskChecks :=
    match flow_obj with
    | FlowObject.task t =>
      if incoming_flows.isEmpty && outgoing_flows.isEmpty then
        [{ severity := ValidationSeverity.warning,
           element_id := some t.id,
           element_type := some "Task",
           message := "Task is not connected to any sequence flows",
           rule_name := "sequence_flow_rule" }]
      else []
    | _ => []
  startChecks ++ endChecks ++ taskChecks

/-- The per-process body of validators.SequenceFlowRule.validate. -/
def SequenceFlowRule.validateProcess (process : Process) :
    List ValidationResult :=
  process.get_all_flow_objects.flatMap
    (SequenceFlowRule.checkFlowObject process.sequence_flows)

/-- validators.SequenceFlowRule.validate. -/
def SequenceFlowRule.validate (d : BPMNDiagram) : List ValidationResult :=
  d.processes.flatMap SequenceFlowRule.validateProcess

/-- The per-gateway body of validators.GatewayRule.validate: missing fan-in
    or fan-out is an error; a diverging gateway with fewer than two outgoing
    flows, or a converging one with fewer than two incoming flows, is a
    warning. -/
def GatewayRule.checkGateway (flows : List SequenceFlow) (gateway : Gateway) :
    List ValidationResult :=
  let incoming_flows := flows.filter (fun f => f.target_ref == gateway.id)
  let outgoing_flows := flows.filter (fun f => f.source_ref == gateway.id)
  (if incoming_flows.length == 0 then
    [{ severity := ValidationSeverity.error,
       element_id := some gateway.id,
       element_type := some "Gateway",
       message := "Gateway must have at least one incoming sequence flow",
       rule_name := "gateway_rule" }]
   else []) ++
  (if outgoing_flows.length == 0 then
    [{ severity := ValidationSeverity.error,
       element_id := some gateway.id,
       element_type := some "Gateway",
       message := "Gateway must have at least one outgoing sequence flow",
       rule_name := "gateway_rule" }]
   else []) ++
  (if gateway.is_diverging && outgoing_flows.length < 2 then
    [{ severity := ValidationSeverity.warning,
       element_id := some gateway.id,
       element_type := some "Gateway",
       message := "Diverging gateway should have multiple outgoing flows",
       rule_name := "gateway_rule" }]
   else []) ++
  (if gateway.is_converging && incoming_flows.length < 2 then
    [{ severity := ValidationSeverity.warning,
       element_id := some gateway.id,
       element_type := some "Gateway",
       message := "Converging gateway should have multiple incoming flows",
       rule_name := "gateway_rule" }]
   else [])

/-- validators.GatewayRule.validate. -/
def GatewayRule.validate (d : BPMNDiagram) : List ValidationResult :=
  d.processes.flatMap (fun process =>
    process.gateways.flatMap (GatewayRule.checkGateway process.sequence_flows))

/-- The findings produced by one pass of the four built-in rules, in the
    order the validator registers them. -/
def builtinRulesFindings (d : BPMNDiagram) : List ValidationResult :=
  StartEventRule.validate d ++ EndEventRule.validate d ++
  SequenceFlowRule.validate d ++ GatewayRule.validate d

/-- validators.BPMNValidator with the four built-in rules: the held diagram
    plus the mutable findings buffer. -/
structure BPMNValidator where
  diagram : BPMNDiagram
  results : List ValidationResult := []

/-- validators.BPMNValidator.validate: clears the buffer, runs every rule in
    order appending its findings, and returns True iff no finding has error
    severity.  Modelled as the post-call validator state paired with the
    returned boolean. -/
def BPMNValidator.validate (v : BPMNValidator) : BPMNValidator × Bool :=
  let results := builtinRulesFindings v.diagram
  ({ v with results := results },
   !(results.any (fun result => result.severity == ValidationSeverity.error)))

/-- validators.BPMNValidator.has_errors. -/
def BPMNValidator.has_errors (v : BPMNValidator) : Bool :=
  v.results.any (fun result => result.severity == ValidationSeverity.error)

mutual
/-- Ids of everything held inside a sub-process: its nested elements
    (recursively), its nested sequence flows and its boundary events.
    Written to the words of the spec sentence that counts these as under the
    owning process scope; the code-side lookup is Process.get_element_by_id. -/
def SubProcess.specInnerIds : SubProcess → List String
  | SubProcess.mk _ _ _ _ es fs bs =>
    SubElement.listIds es ++ fs.map SequenceFlow.id ++ bs.map Event.id

/-- Ids contributed by one nested element, the element itself included. -/
def SubElement.ids : SubElement → List String
  | SubElement.task t => [t.id]
  | SubElement.event e => [e.id]
  | SubElement.sub s => s.id :: SubProcess.specInnerIds s

/-- Ids contributed by a list of nested elements. -/
def SubElement.listIds : List SubElement → List String
  | [] => []
  | x :: xs => SubElement.ids x ++ SubElement.listIds xs
end

/-- Ids under a process scope as the spec words it: every directly held
    element plus everything held inside sub-processes of the process. -/
def Process.specScopeIds (p : Process) : List String :=
  p.get_all_elements.map BElement.id ++
  p.subprocesses.flatMap SubProcess.specInnerIds

mutual
/-- Ids of a lane and of all lanes nested below it as child lanes,
    following the spec wording that the diagram scan covers nested lanes. -/
def Lane.specAllIds : Lane → List String
  | Lane.mk i _ _ cs => i :: laneListIds cs

/-- Ids of a list of lanes with all their nested child lanes. -/
def laneListIds : List Lane → List String
  | [] => []
  | l :: ls => Lane.specAllIds l ++ laneListIds ls
end

/-- Ids under a diagram scope as claim C4 words it: process scopes as the
    process-level lookup covers them, pools with all nested lanes (child
    lanes included), message flows and global artifacts. -/
def BPMNDiagram.specScopeIds (d : BPMNDiagram) : List String :=
  d.processes.flatMap (fun p => p.get_all_elements.map BElement.id) ++
  d.pools.flatMap (fun pool => pool.id :: pool.lanes.flatMap Lane.specAllIds) ++
  d.message_flows.map MessageFlow.id ++
  d.global_data_stores.map DataStore.id ++
  d.global_text_annotations.map TextAnnotation.id

/-- The flat list of elements that BPMNDiagram.get_element_by_id scans, in
    scan order: each process through the process-level lookup, then each
    pool followed by its direct lanes, then message flows, then global data
    stores, then global text annotations. -/
def BPMNDiagram.scanList (d : BPMNDiagram) : List BElement :=
  d.processes.flatMap Process.get_all_elements ++
  d.pools.flatMap (fun pool =>
    BElement.pool pool :: pool.lanes.map BElement.lane) ++
  d.message_flows.map BElement.messageFlow ++
  d.global_data_stores.map BElement.dataStore ++
  d.global_text_annotations.map BElement.textAnn

/- Concrete fixtures used by the scenario results below. -/

/-- Scenario C gateway: exclusive, diverging. -/
def g1 : Gateway :=
  { id := "g1", gateway_direction := GatewayDirection.diverging }

/-- Scenario C: the single outgoing flow of g1. -/
def flowC : SequenceFlow := { id := "f1", source_ref := "g1", target_ref := "x" }

/-- Scenario C process: exactly one diverging exclusive gateway and its one
    outgoing sequence flow. -/
def processC : Process :=
  { id := "p1", gateways := [g1], sequence_flows := [flowC] }

/-- Scenario C diagram. -/
def diagramC : BPMNDiagram := { id := "d1", processes := [processC] }

/-- Scenario D start event s1. -/
def s1 : Event := { id := "s1" }

/-- Scenario D task t0. -/
def t0 : Task := { id := "t0" }

/-- Scenario D: the one sequence flow, from t0 into s1. -/
def flowD : SequenceFlow := { id := "f2", source_ref := "t0", target_ref := "s1" }

/-- Scenario D process: start event s1, task t0, one flow t0 to s1. -/
def processD : Process :=
  { id := "p2", events := [s1], tasks := [t0], sequence_flows := [flowD] }

/-- Scenario D diagram. -/
def diagramD : BPMNDiagram := { id := "d2", processes := [processD] }

/-- A task nested inside a sub-process, invisible to the process lookup. -/
def nestedTask : Task := { id := "x" }

/-- A sub-process holding nestedTask. -/
def subE : SubProcess :=
  SubProcess.mk "sp1" Option.none SubProcessType.embedded []
    [SubElement.task nestedTask] [] []

/-- A process whose only child is subE. -/
def processE : Process := { id := "p3", subprocesses := [subE] }

/-- A child lane nested under another lane, invisible to the diagram scan. -/
def childLane : Lane := Lane.mk "c" Option.none [] []

/-- The parent lane holding childLane. -/
def parentLane : Lane := Lane.mk "L" Option.none [] [childLane]

/-- A pool whose direct lane list is just parentLane. -/
def poolF : Pool := { id := "pool1", lanes := [parentLane] }

/-- A diagram whose only content is poolF. -/
def diagramF : BPMNDiagram := { id := "d4", pools := [poolF] }

/-- Scenario B style clean diagram: start, task, end, linked in a chain. -/
def processB : Process :=
  { id := "p5",
    events := [{ id := "s5" }, { id := "e5", event_type := EventType.end_ }],
    tasks := [{ id := "t5" }],
    sequence_flows :=
      [{ id := "f5a", source_ref := "s5", target_ref := "t5" },
       { id := "f5b", source_ref := "t5", target_ref := "e5" }] }

/-- Diagram around processB. -/
def diagramB : BPMNDiagram := { id := "d5", processes := [processB] }

/-- A process with a single start event of id a, for the lookup witness. -/
def processW : Process := { id := "pw", events := [{ id := "a" }] }

/-- A parallel gateway, which must reject a default flow. -/
def gPar : Gateway := { id := "g2", gateway_type := GatewayType.parallel }

/-- A fresh validator over the clean diagram. -/
def validatorB : BPMNValidator := { diagram := diagramB }

/- Theorems. -/

/-- Claim C1, counterexample: on the Scenario C diagram (one diverging
    exclusive gateway with a single outgoing flow) the validator does not
    produce zero errors and one warning: the start-event rule and the
    gateway fan-in check fire as errors and the end-event rule adds a second
    warning. -/
theorem scenarioC_claim_false :
    ¬ ((builtinRulesFindings diagramC).countP
         (fun r => r.severity == ValidationSeverity.error) = 0 ∧
       (builtinRulesFindings diagramC).countP
         (fun r => r.severity == ValidationSeverity.warning) = 1) := by
  decide

/-- Claim C1, amended: validating the Scenario C diagram yields exactly
    these four findings in order: a missing-start-event error and a
    missing-end-event warning on the process, then a no-incoming-flow error
    and the single diverging-gateway warning on g1 — so the diverging
    warning appears exactly once, but alongside two errors and one more
    warning. -/
theorem scenarioC_findings :
    builtinRulesFindings diagramC =
      [{ severity := ValidationSeverity.error, element_id := some "p1",
         element_type := some "Process",
         message := "Process must have at least one start event",
         rule_name := "start_event_rule" },
       { severity := ValidationSeverity.warning, element_id := some "p1",
         element_type := some "Process",
         message := "Process should have at least one end event",
         rule_name := "end_event_rule" },
       { severity := ValidationSeverity.error, element_id := some "g1",
         element_type := some "Gateway",
         message := "Gateway must have at least one incoming sequence flow",
         rule_name := "gateway_rule" },
       { severity := ValidationSeverity.warning, element_id := some "g1",
         element_type := some "Gateway",
         message := "Diverging gateway should have multiple outgoing flows",
         rule_name := "gateway_rule" }] := by
  rfl

/-- Claim C2: validate() returns true exactly when the findings list it
    produced holds no error-severity finding; warnings and info never flip
    the boolean. -/
theorem validate_true_iff_no_error (v : BPMNValidator) :
    (v.validate).2 = true ↔
      ∀ r ∈ (v.validate).1.results, r.severity ≠ ValidationSeverity.error := by
  simp [BPMNValidator.validate]

/-- Claim C2, witness: on the clean chain diagram the produced findings have
    no error and validate() returns true. -/
theorem validate_true_iff_no_error_witness :
    (validatorB.validate).2 = true :=
  (validate_true_iff_no_error validatorB).mpr (by decide)

/-- Claim C5: set_default_flow succeeds (recording the flow id) exactly for
    exclusive and inclusive gateways, and for every other kind immediately
    returns the configuration error naming the unsupported kind, producing
    no updated gateway, so the default_flow field stays as it was. -/
theorem set_default_flow_spec (g : Gateway) (flow_id : String) :
    ((g.gateway_type = GatewayType.exclusive ∨
      g.gateway_type = GatewayType.inclusive) →
      g.set_default_flow flow_id =
        Except.ok { g with default_flow := some flow_id }) ∧
    (g.gateway_type ≠ GatewayType.exclusive →
     g.gateway_type ≠ GatewayType.inclusive →
      g.set_default_flow flow_id =
        Except.error ("Default flow not supported for " ++
          g.gateway_type.value ++ " gateway")) := by
  constructor
  · intro h
    rcases h with h | h <;>
      simp [Gateway.set_default_flow, Gateway.is_exclusive,
        Gateway.is_inclusive, h]
  · intro h1 h2
    simp [Gateway.set_default_flow, Gateway.is_exclusive,
      Gateway.is_inclusive, h1, h2]

/-- Claim C5, witness: the exclusive gateway g1 accepts a default flow and
    the parallel gateway gPar rejects it with the message naming parallel. -/
theorem set_default_flow_spec_witness :
    g1.set_default_flow "f9" = Except.ok { g1 with default_flow := some "f9" } ∧
    gPar.set_default_flow "f9" =
      Except.error ("Default flow not supported for " ++
        gPar.gateway_type.value ++ " gateway") :=
  ⟨(set_default_flow_spec g1 "f9").1 (Or.inl rfl),
   (set_default_flow_spec gPar "f9").2 (by decide) (by decide)⟩

/-- Claim C7: on the Scenario D diagram (start event s1 fed by one incoming
    flow from task t0), the whole validator run yields exactly one
    error-severity finding, and it sits on s1 and comes from the
    sequence-flow rule. -/
theorem scenarioD_unique_error :
    (builtinRulesFindings diagramD).filter
        (fun r => r.severity == ValidationSeverity.error) =
      [{ severity := ValidationSeverity.error, element_id := some "s1",
         element_type := some "StartEvent",
         message := "Start events cannot have incoming sequence flows",
         rule_name := "sequence_flow_rule" }] := by
  rfl

/-- Claim C8: running validate() twice with no mutation in between yields
    the same findings and the same boolean, because the buffer is cleared
    and rebuilt from the unchanged diagram on each run. -/
theorem validate_idempotent (v : BPMNValidator) :
    ((v.validate).1.validate).1.results = (v.validate).1.results ∧
    ((v.validate).1.validate).2 = (v.validate).2 :=
  ⟨rfl, rfl⟩

/-- Claim C9: the parallel and sequential multi-instance setters append
    their marker and set collection, element variable and the sequential
    flag; markers accumulate, so configuring both leaves both conflicting
    markers in the list. -/
theorem multi_instance_markers_accumulate (t : Task) (c v c2 v2 : String) :
    t.set_multi_instance_parallel c v =
      { t with markers := t.markers ++ [ActivityMarker.parallel_multi_instance],
               collection := some c, element_variable := some v,
               is_sequential := false } ∧
    t.set_multi_instance_sequential c v =
      { t with markers := t.markers ++ [ActivityMarker.sequential_multi_instance],
               collection := some c, element_variable := some v,
               is_sequential := true } ∧
    ((t.set_multi_instance_parallel c v).set_multi_instance_sequential c2 v2).markers
      = t.markers ++ [ActivityMarker.parallel_multi_instance,
                      ActivityMarker.sequential_multi_instance] ∧
    ActivityMarker.parallel_multi_instance ∈
      ((t.set_multi_instance_parallel c v).set_multi_instance_sequential c2 v2).markers ∧
    ActivityMarker.sequential_multi_instance ∈
      ((t.set_multi_instance_parallel c v).set_multi_instance_sequential c2 v2).markers := by
  refine ⟨rfl, rfl, ?_, ?_, ?_⟩ <;>
    simp [Task.set_multi_instance_parallel, Task.set_multi_instance_sequential]

/-- Claim C10: add_boundary_event stores the event attached with the
    sub-process id and the interrupting flag forced to true, whatever the
    prior flag was; the public operation cannot produce a non-interrupting
    boundary event. -/
theorem add_boundary_event_always_interrupting (s : SubProcess) (e : Event) :
    (s.add_boundary_event e).boundary_events =
      s.boundary_events ++ [e.attach_to_activity s.id true] ∧
    (e.attach_to_activity s.id true).event_type = EventType.boundary ∧
    (e.attach_to_activity s.id true).attached_to_ref = some s.id ∧
    (e.attach_to_activity s.id true).is_interrupting = true := by
  cases s with
  | mk i n ty ms es fs bs => exact ⟨rfl, rfl, rfl, rfl⟩

/-- Claim C3, counterexample: the id x sits on a task nested inside a
    sub-process of processE, so the spec counts it as under the process
    scope, yet Process.get_element_by_id misses it: the scan never descends
    into sub-processes. -/
theorem process_lookup_misses_nested_subprocess_element :
    "x" ∈ Process.specScopeIds processE ∧
    Process.get_element_by_id processE "x" = Option.none :=
  ⟨by decide, rfl⟩

/-- Claim C6: the sequence-flow rule, per flow object of a process, emits an
    error for a start event with any incoming flow (matched on target_ref),
    an error for an end event with any outgoing flow (matched on
    source_ref), a warning for a task with both sets empty, and nothing at
    all for a gateway or a sub-process, however disconnected; the
    per-process run is exactly the concatenation over its flow objects. -/
theorem sequence_flow_rule_spec (flows : List SequenceFlow) :
    (∀ e : Event, e.is_start_event = true →
       flows.filter (fun f => f.target_ref == e.id) ≠ [] →
       SequenceFlowRule.checkFlowObject flows (FlowObject.event e) =
         [{ severity := ValidationSeverity.error, element_id := some e.id,
            element_type := some "StartEvent",
            message := "Start events cannot have incoming sequence flows",
            rule_name := "sequence_flow_rule" }]) ∧
    (∀ e : Event, e.is_end_event = true →
       flows.filter (fun f => f.source_ref == e.id) ≠ [] →
       SequenceFlowRule.checkFlowObject flows (FlowObject.event e) =
         [{ severity := ValidationSeverity.error, element_id := some e.id,
            element_type := some "EndEvent",
            message := "End events cannot have outgoing sequence flows",
            rule_name := "sequence_flow_rule" }]) ∧
    (∀ t : Task, flows.filter (fun f => f.target_ref == t.id) = [] →
       flows.filter (fun f => f.source_ref == t.id) = [] →
       SequenceFlowRule.checkFlowObject flows (FlowObject.task t) =
         [{ severity := ValidationSeverity.warning, element_id := some t.id,
            element_type := some "Task",
            message := "Task is not connected to any sequence flows",
            rule_name := "sequence_flow_rule" }]) ∧
    (∀ g : Gateway,
       SequenceFlowRule.checkFlowObject flows (FlowObject.gateway g) = []) ∧
    (∀ s : SubProcess,
       SequenceFlowRule.checkFlowObject flows (FlowObject.sub s) = []) ∧
    (∀ p : Process, SequenceFlowRule.validateProcess p =
       p.get_all_flow_objects.flatMap
         (SequenceFlowRule.checkFlowObject p.sequence_flows)) := by
  refine ⟨?_, ?_, ?_, fun g => rfl, fun s => rfl, fun p => rfl⟩
  · intro e hstart hinc
    have hend : e.is_end_event = false := by
      have : e.event_type = EventType.start := by
        simpa [Event.is_start_event] using hstart
      simp [Event.is_end_event, this]
    simp [SequenceFlowRule.checkFlowObject, FlowObject.id, hstart, hend, hinc]
  · intro e hend hout
    have hstart : e.is_start_event = false := by
      have : e.event_type = EventType.end_ := by
        simpa [Event.is_end_event] using hend
      simp [Event.is_start_event, this]
    simp [SequenceFlowRule.checkFlowObject, FlowObject.id, hstart, hend, hout]
  · intro t hinc hout
    simp [SequenceFlowRule.checkFlowObject, FlowObject.id, hinc, hout]

/-- Claim C6, witness: the Scenario D start event s1 with its one incoming
    flow produces exactly the connectivity error. -/
theorem sequence_flow_rule_spec_witness :
    SequenceFlowRule.checkFlowObject [flowD] (FlowObject.event s1) =
      [{ severity := ValidationSeverity.error, element_id := some "s1",
         element_type := some "StartEvent",
         message := "Start events cannot have incoming sequence flows",
         rule_name := "sequence_flow_rule" }] :=
  (sequence_flow_rule_spec [flowD]).1 s1 rfl (by decide)

/-- In a list of elements with pairwise distinct ids, find? on an id held
    by a member returns that member. -/
theorem find_eq_some_of_unique {l : List BElement} {e : BElement} {s : String}
    (hmem : e ∈ l) (hid : e.id = s)
    (huniq : l.Pairwise (fun a b => a.id ≠ b.id)) :
    l.find? (fun x => x.id == s) = some e := by
  induction l with
  | nil => cases hmem
  | cons a t ih =>
    rcases List.mem_cons.mp hmem with h | h
    · subst h
      exact List.find?_cons_of_pos _ (by simp [hid])
    · have hne : a.id ≠ s := by
        have := (List.pairwise_cons.mp huniq).1 e h
        rw [hid] at this
        exact this
      rw [List.find?_cons_of_neg _ (by simp [hne])]
      exact ih h (List.pairwise_cons.mp huniq).2

/-- Claim C3, amended: the process lookup misses an id exactly when no
    directly held element (the get_all_elements collections, which do not
    descend into sub-processes) carries it, and under unique direct ids an
    existing id returns the unique owning element. -/
theorem process_lookup_spec (p : Process) (s : String) :
    (Process.get_element_by_id p s = Option.none ↔
       ∀ e ∈ p.get_all_elements, BElement.id e ≠ s) ∧
    (∀ e ∈ p.get_all_elements, BElement.id e = s →
       p.get_all_elements.Pairwise (fun a b => BElement.id a ≠ BElement.id b) →
       Process.get_element_by_id p s = some e) := by
  constructor
  · unfold Process.get_element_by_id
    rw [List.find?_eq_none]
    simp
  · intro e hmem hid huniq
    exact find_eq_some_of_unique hmem hid huniq

/-- Claim C3, witness: on a process holding one event of id a, the lookup
    returns that event. -/
theorem process_lookup_spec_witness :
    Process.get_element_by_id processW "a" =
      some (BElement.event { id := "a" }) :=
  (process_lookup_spec processW "a").2 (BElement.event { id := "a" })
    (List.mem_singleton.mpr rfl) rfl (List.pairwise_singleton _ _)

/-- The process loop of the diagram lookup equals a find? over the
    concatenated process element lists. -/
theorem findInProcesses_eq (ps : List Process) (s : String) :
    findInProcesses ps s =
      (ps.flatMap Process.get_all_elements).find? (fun e => e.id == s) := by
  induction ps with
  | nil => rfl
  | cons p t ih =>
    rw [List.flatMap_cons, List.find?_append, ← ih]
    have h2 : List.find? (fun e => e.id == s) p.get_all_elements =
        p.get_element_by_id s := rfl
    rw [h2]
    simp only [findInProcesses]
    cases p.get_element_by_id s <;> rfl

/-- The pool loop of the diagram lookup equals a find? over each pool
    followed by its direct lanes. -/
theorem findInPools_eq (pools : List Pool) (s : String) :
    findInPools pools s =
      (pools.flatMap (fun pool =>
         BElement.pool pool :: pool.lanes.map BElement.lane)).find?
        (fun e => e.id == s) := by
  induction pools with
  | nil => rfl
  | cons pool t ih =>
    rw [List.flatMap_cons, List.cons_append]
    by_cases h : pool.id = s
    · have hp : (fun e => BElement.id e == s) (BElement.pool pool) = true := by
        simp [BElement.id, h]
      rw [List.find?_cons_of_pos (p := fun e => BElement.id e == s) _ hp]
      simp [findInPools, h]
    · have hp : ¬ (fun e => BElement.id e == s) (BElement.pool pool) = true := by
        simp [BElement.id, h]
      rw [List.find?_cons_of_neg (p := fun e => BElement.id e == s) _ hp,
        List.find?_append, List.find?_map, ← ih]
      have hc : ((fun e => BElement.id e == s) ∘ BElement.lane) =
          (fun lane => lane.id == s) := rfl
      rw [hc]
      simp only [findInPools]
      rw [if_neg (by simp [h])]
      cases pool.lanes.find? (fun lane => lane.id == s) <;> rfl

/-- Claim C4, amended: the diagram lookup is the first-match scan of
    scanList, i.e. processes (delegating to the process lookup), then each
    pool followed by its direct lanes only — child lanes are never
    descended into — then message flows, then global data stores and
    global text annotations. -/
theorem diagram_lookup_scan_order (d : BPMNDiagram) (s : String) :
    BPMNDiagram.get_element_by_id d s =
      d.scanList.find? (fun e => e.id == s) := by
  unfold BPMNDiagram.get_element_by_id BPMNDiagram.scanList
  rw [List.find?_append, List.find?_append, List.find?_append, List.find?_append]
  rw [← findInProcesses_eq, ← findInPools_eq]
  rw [List.find?_map, List.find?_map, List.find?_map]
  have hm : ((fun e => BElement.id e == s) ∘ BElement.messageFlow) =
      (fun m => m.id == s) := rfl
  have hd : ((fun e => BElement.id e == s) ∘ BElement.dataStore) =
      (fun ds => ds.id == s) := rfl
  have ht : ((fun e => BElement.id e == s) ∘ BElement.textAnn) =
      (fun ta => ta.id == s) := rfl
  rw [hm, hd, ht]
  cases findInProcesses d.processes s <;>
    cases findInPools d.pools s <;>
      cases d.message_flows.find? (fun m => m.id == s) <;>
        cases d.global_data_stores.find? (fun ds => ds.id == s) <;>
          cases d.global_text_annotations.find? (fun ta => ta.id == s) <;> rfl

/-- Claim C4, counterexample: the id c belongs to a lane nested as a child
    lane, which the claim counts as scanned, yet the diagram lookup misses
    it: only direct lanes of each pool are visited. -/
theorem diagram_lookup_misses_child_lane :
    "c" ∈ BPMNDiagram.specScopeIds diagramF ∧
    BPMNDiagram.get_element_by_id diagramF "c" = Option.none :=
  ⟨by decide, rfl⟩

end BPMN
